import Mathlib

/-!
Shallow embedding of `src/app.py`: a dashboard script that loads a
genetic-variant table, filters it by disease phenotype and by gene symbol,
builds selection labels for the first 500 matching rows, resolves a
selected label back to a row, and projects the eight gnomAD population
frequencies of the selected row onto fixed world-map coordinates.

Modelling conventions:
* A dataframe cell either holds a value or is missing (`Option`); a pandas
  `NaN` cell and an absent column are both modelled as `none`.
* Numeric cell contents (including numeric strings, which Python `float`
  and `pandas.to_numeric` parse to the same number) are modelled as
  rationals via `CellValue.num`; contents that `float` cannot parse are
  `CellValue.nonNumeric`.
* `Series.str.contains(q, case=False, na=False)` performs regex matching
  (the `regex=True` default, with `re.IGNORECASE`): modelled by a regex
  AST, a derivative-based matcher with search semantics, and a parser
  for a documented subset of the pattern syntax of `re`; a pattern the
  parser rejects (malformed, or outside the subset) is mapped to the
  raising path, and missing cells never match (`na=False`). The literal
  substring notion the spec speaks of is kept separately as `containsCI`.
* The filesystem and the CSV parser are abstracted as function parameters
  of the loader.
-/

/-- A dataframe cell value: either a number, or content that Python
`float` / `pandas.to_numeric` cannot parse as a number. -/
inductive CellValue where
  | num (q : ℚ)
  | nonNumeric (s : String)
deriving DecidableEq

/-- One row of the variant dataframe, with the columns `app.py` reads.
String columns are `Option String` (`none` models a `NaN` cell); `rsid`
holds the value after `pd.to_numeric(df['rsid'], errors='coerce')`
(line 40); the eight gnomAD frequency columns hold raw cell values. -/
structure Row where
  name : Option String
  geneSymbol : Option String
  phenotypeList : Option String
  clinicalSignificance : Option String
  rsid : Option ℚ
  af_afr : Option CellValue
  af_amr : Option CellValue
  af_eas : Option CellValue
  af_nfe : Option CellValue
  af_fin : Option CellValue
  af_sas : Option CellValue
  af_asj : Option CellValue
  af_oth : Option CellValue
deriving DecidableEq

/-- Python `s.strip()`: remove leading and trailing whitespace. -/
def pyStrip (s : String) : String :=
  String.mk (((s.toList.dropWhile Char.isWhitespace).reverse.dropWhile
    Char.isWhitespace).reverse)

/-- Does the pattern occur as a contiguous run inside the haystack?
(`pat` occurs in `hay` iff `pat` is a prefix of some suffix of `hay`.) -/
def occursIn (pat : List Char) : List Char → Bool
  | [] => pat.isEmpty
  | c :: t => pat.isPrefixOf (c :: t) || occursIn pat t

/-- The notion the spec asserts of the filter: literal case-insensitive
substring containment ("contains the query as a case-insensitive
substring"). The program itself performs regex matching (see `reFilter`);
for literal, metacharacter-free patterns the two coincide
(`reSearch_litRE`). -/
def containsCI (s query : String) : Bool :=
  occursIn (query.toList.map Char.toLower) (s.toList.map Char.toLower)

/-- Regular-expression abstract syntax for the modelled subset of the
pattern language of `re`: the unmatchable regex, the empty string, a
literal character, `.` (any character except a newline), concatenation,
alternation and Kleene star. `+` and `?` are desugared by the parser. -/
inductive RE where
  | fail
  | eps
  | ch (c : Char)
  | dot
  | seq (r1 r2 : RE)
  | alt (r1 r2 : RE)
  | star (r : RE)
deriving DecidableEq

/-- Does the regex accept the empty string? -/
def reNullable : RE → Bool
  | RE.fail => false
  | RE.eps => true
  | RE.ch _ => false
  | RE.dot => false
  | RE.seq r1 r2 => reNullable r1 && reNullable r2
  | RE.alt r1 r2 => reNullable r1 || reNullable r2
  | RE.star _ => true

/-- Smart concatenation (used by the derivative only; same language). -/
def mkSeq : RE → RE → RE
  | RE.fail, _ => RE.fail
  | _, RE.fail => RE.fail
  | RE.eps, r => r
  | r, RE.eps => r
  | r1, r2 => RE.seq r1 r2

/-- Smart alternation (used by the derivative only; same language). -/
def mkAlt : RE → RE → RE
  | RE.fail, r => r
  | r, RE.fail => r
  | r1, r2 => RE.alt r1 r2

/-- Brzozowski derivative of a regex by one input character, with
`re.IGNORECASE` folded in: a literal character matches up to `toLower`,
and `.` matches anything except a newline (the `re` default). -/
def reDeriv : RE → Char → RE
  | RE.fail, _ => RE.fail
  | RE.eps, _ => RE.fail
  | RE.ch c, d => if c.toLower = d.toLower then RE.eps else RE.fail
  | RE.dot, d => if d = '\n' then RE.fail else RE.eps
  | RE.seq r1 r2, d =>
    if reNullable r1 then mkAlt (mkSeq (reDeriv r1 d) r2) (reDeriv r2 d)
    else mkSeq (reDeriv r1 d) r2
  | RE.alt r1 r2, d => mkAlt (reDeriv r1 d) (reDeriv r2 d)
  | RE.star r, d => mkSeq (reDeriv r d) (RE.star r)

/-- Does some prefix of the input match the regex? -/
def reMatchPref (r : RE) : List Char → Bool
  | [] => reNullable r
  | c :: t => reNullable r || reMatchPref (reDeriv r c) t

/-- `re.search` as a Boolean: does the regex match starting at some
position of the input? -/
def reSearchList (r : RE) : List Char → Bool
  | [] => reNullable r
  | c :: t => reMatchPref r (c :: t) || reSearchList r t

/-- `re.search(r, s, re.IGNORECASE)` succeeds on the cell text `s`. -/
def reSearch (r : RE) (s : String) : Bool :=
  reSearchList r s.toList

/-- The regex of a literal pattern: the concatenation of its characters
(this is exactly what the parser produces on a metacharacter-free
pattern). -/
def litRE (p : List Char) : RE :=
  p.foldr (fun c r => RE.seq (RE.ch c) r) RE.eps

/-- The characters that are special in the pattern syntax of `re`. -/
def isMetaChar (c : Char) : Bool :=
  ['.', '^', '$', '*', '+', '?', '{', '}', '[', ']', '\\', '|', '(',
    ')'].contains c

/-- Grammar levels of the recursive-descent pattern parser. -/
inductive PMode where
  | palt | pconcat | pitem | patom
deriving DecidableEq

/-- Recursive-descent parser for the modelled subset of the pattern
syntax of `re` (grammar: alt := concat ('|' alt)?; concat := item concat
or empty; item := atom ('*' or '+' or '?')?; atom := '(' alt ')' or '.'
or a backslash-escaped metacharacter or a plain character). Fuel-driven
so that recursion is structural; the fuel supplied by `compileRE` is
always sufficient. Returns the parsed regex and the unconsumed input, or
`none` when the input cannot start with a phrase of the requested level. -/
def parseRE : Nat → PMode → List Char → Option (RE × List Char)
  | 0, _, _ => none
  | fuel+1, PMode.palt, l =>
    match parseRE fuel PMode.pconcat l with
    | none => none
    | some (r1, l1) =>
      match l1 with
      | '|' :: l2 =>
        match parseRE fuel PMode.palt l2 with
        | none => none
        | some (r2, l3) => some (RE.alt r1 r2, l3)
      | _ => some (r1, l1)
  | fuel+1, PMode.pconcat, l =>
    match parseRE fuel PMode.pitem l with
    | none => some (RE.eps, l)
    | some (r1, l1) =>
      match parseRE fuel PMode.pconcat l1 with
      | none => none
      | some (r2, l2) => some (RE.seq r1 r2, l2)
  | fuel+1, PMode.pitem, l =>
    match parseRE fuel PMode.patom l with
    | none => none
    | some (r, l1) =>
      match l1 with
      | '*' :: l2 => some (RE.star r, l2)
      | '+' :: l2 => some (RE.seq r (RE.star r), l2)
      | '?' :: l2 => some (RE.alt r RE.eps, l2)
      | _ => some (r, l1)
  | fuel+1, PMode.patom, l =>
    match l with
    | [] => none
    | '(' :: l1 =>
      match parseRE fuel PMode.palt l1 with
      | some (r, ')' :: l2) => some (r, l2)
      | _ => none
    | '.' :: l1 => some (RE.dot, l1)
    | '\\' :: c :: l1 => if isMetaChar c then some (RE.ch c, l1) else none
    | c :: l1 => if isMetaChar c then none else some (RE.ch c, l1)

/-- Compile a pattern string as `re.compile` would. `none` models both a
`re.error` (malformed pattern, e.g. "(" with its unbalanced parenthesis)
and a pattern using syntax outside the modelled subset (conservatively
mapped to the failure case; every theorem about successful filtering is
conditioned on compilation succeeding, where the model is faithful). -/
def compileRE (pat : String) : Option RE :=
  match parseRE (4 * pat.length + 8) PMode.palt pat.toList with
  | some (r, []) => some r
  | _ => none

/-- One filter predicate application: a missing cell never matches
(`na=False`); otherwise the regex search on the cell text decides. -/
def optSearch (r : RE) : Option String → Bool
  | none => false
  | some s => reSearch r s

/-- `series.str.contains(pat, case=False, na=False)` used as a row mask
(lines 66 and 68 of `app.py`): the pattern is compiled as a regular
expression (the `regex=True` default, with `re.IGNORECASE`); a pattern
that does not compile raises `re.error`, modelled as `Except.error`
carrying the pattern; otherwise the matching rows are kept in order. -/
def reFilter (get : Row → Option String) (pat : String) (t : List Row) :
    Except String (List Row) :=
  match compileRE pat with
  | none => Except.error pat
  | some r => Except.ok (t.filter (fun row => optSearch r (get row)))

/-- Lines 60-68 of `app.py`: both text inputs are stripped (lines 60-61);
a non-empty disease query filters on `PhenotypeList` (line 66), then a
non-empty gene query filters on `GeneSymbol` (line 68); an `re.error`
raised by either filter propagates. -/
def filterTable (t : List Row) (diseaseQuery geneQuery : String) :
    Except String (List Row) :=
  let dq := pyStrip diseaseQuery
  let gq := pyStrip geneQuery
  match (if dq = "" then Except.ok t
         else reFilter Row.phenotypeList dq t) with
  | Except.error e => Except.error e
  | Except.ok t1 =>
    if gq = "" then Except.ok t1 else reFilter Row.geneSymbol gq t1

/-- The conjunctive row predicate: a row passes when it satisfies the
(possibly blank, hence vacuous) disease regex condition and the
(possibly blank) gene regex condition. -/
def rowMatches (row : Row) (diseaseQuery geneQuery : String)
    (rd rg : RE) : Bool :=
  (if pyStrip diseaseQuery = "" then true
   else optSearch rd row.phenotypeList) &&
  (if pyStrip geneQuery = "" then true
   else optSearch rg row.geneSymbol)

/-- Example row: a CFTR variant with a phenotype. -/
def rowCF : Row :=
  { name := some "NM_000492.4(CFTR):c.1521_1523del"
    geneSymbol := some "CFTR"
    phenotypeList := some "Cystic fibrosis"
    clinicalSignificance := some "Pathogenic"
    rsid := some 113993960
    af_afr := none, af_amr := none, af_eas := none, af_nfe := none
    af_fin := none, af_sas := none, af_asj := none, af_oth := none }

/-- Example row: a second CFTR variant. -/
def rowCF2 : Row :=
  { name := some "NM_000492.4(CFTR):c.1624G>T"
    geneSymbol := some "CFTR"
    phenotypeList := some "Cystic fibrosis"
    clinicalSignificance := some "Pathogenic"
    rsid := some 121908745
    af_afr := none, af_amr := none, af_eas := none, af_nfe := none
    af_fin := none, af_sas := none, af_asj := none, af_oth := none }

/-- Example row: a BRCA1 variant whose phenotype cell is missing. -/
def rowBRCA : Row :=
  { name := some "NM_007294.4(BRCA1):c.68_69del"
    geneSymbol := some "BRCA1"
    phenotypeList := none
    clinicalSignificance := some "Pathogenic"
    rsid := some 80357914
    af_afr := none, af_amr := none, af_eas := none, af_nfe := none
    af_fin := none, af_sas := none, af_asj := none, af_oth := none }

/-- Line 74 of `app.py`: at most 500 rows are offered for selection. -/
def display_limit : Nat := 500

/-- Pandas `astype(str)` on one cell: a missing (`NaN`) cell prints as
"nan". -/
def astypeStr : Option String → String
  | none => "nan"
  | some s => s

/-- Pandas `.str[:n]` (Python slicing `s[:n]`): the first `n` characters
of a string. -/
def strTake (s : String) (n : Nat) : String :=
  String.mk (s.toList.take n)

/-- Line 77 of `app.py`: the `SelectionName` label of one row. -/
def selectionName (r : Row) : String :=
  astypeStr r.geneSymbol ++ " | " ++ strTake (astypeStr r.name) 40 ++
    "... | 疾病: " ++ strTake (astypeStr r.phenotypeList) 60 ++ "..."

/-- Lines 74-81: the selection labels of the first `display_limit`
filtered rows, in their original order. -/
def buildLabels (t : List Row) : List String :=
  (t.take display_limit).map selectionName

/-- Line 84 of `app.py`:
`display_df[display_df['SelectionName'] == selected_option].iloc[0]` —
the first displayed row whose label equals the selected option
(`none` models the `.iloc[0]` failure on an empty selection). -/
def resolveSelection (t : List Row) (label : String) : Option Row :=
  ((t.take display_limit).filter (fun r => selectionName r == label)).head?

/-- Example row with short field values. -/
def rowG : Row :=
  { name := some "N", geneSymbol := some "G", phenotypeList := some "P"
    clinicalSignificance := none, rsid := none
    af_afr := none, af_amr := none, af_eas := none, af_nfe := none
    af_fin := none, af_sas := none, af_asj := none, af_oth := none }

/-- A row sharing the selection label of `rowG` but differing in `rsid`. -/
def rowG2 : Row := { rowG with rsid := some 7 }

/-- Example row whose phenotype is "aXb": retained by the regex query
"a.b" although "a.b" is not a literal substring of "aXb". -/
def rowAXB : Row := { rowG with phenotypeList := some "aXb" }

/-- Example row whose gene symbol is "CXR": retained by the regex query
"c.r" although "c.r" is not a literal substring of "CXR". -/
def rowCXR : Row := { rowG with geneSymbol := some "CXR" }

/-- The eight gnomAD frequency cells of a row, in the column order of
`freq_cols` on line 104 of `app.py`: afr, amr, eas, nfe, fin, sas, asj,
oth. -/
def freqVals (r : Row) : List (Option CellValue) :=
  [r.af_afr, r.af_amr, r.af_eas, r.af_nfe, r.af_fin, r.af_sas, r.af_asj,
    r.af_oth]

/-- Line 105 of `app.py`: `any(pd.notnull(selected_row.get(col)) and
float(selected_row.get(col)) > 0 for col in freq_cols)`. The generator
short-circuits left to right; `pd.notnull` is false on a missing cell, so
the cell is skipped without calling `float`; `float` on a non-numeric
cell raises, modelled as `Except.error`. -/
def anyPos : List (Option CellValue) → Except String Bool
  | [] => Except.ok false
  | v :: vs =>
    match v with
    | none => anyPos vs
    | some (CellValue.num q) => if 0 < q then Except.ok true else anyPos vs
    | some (CellValue.nonNumeric s) => Except.error s

/-- `has_freq` of the selected row (line 105). -/
def hasFreq (r : Row) : Except String Bool := anyPos (freqVals r)

/-- The map `Freq` value of one cell: `selected_row.get(col, 0)`
(lines 114-121) followed by
`pd.to_numeric(m_df['Freq'], errors='coerce').fillna(0)` (line 125) —
a missing cell and a non-numeric cell both end up as 0. -/
def coerceFreq : Option CellValue → ℚ
  | none => 0
  | some (CellValue.num q) => q
  | some (CellValue.nonNumeric _) => 0

/-- One candidate map point: region label, fixed coordinates, coerced
frequency. -/
structure PopulationPoint where
  region : String
  lat : Int
  lon : Int
  freq : ℚ
deriving DecidableEq

/-- Lines 113-125 of `app.py`: the eight candidate points with their
hard-coded coordinates and coerced frequencies. -/
def mapData (r : Row) : List PopulationPoint :=
  [⟨"非洲 (African)", 0, 20, coerceFreq r.af_afr⟩,
   ⟨"美洲 (Latino American)", 15, -90, coerceFreq r.af_amr⟩,
   ⟨"东亚 (East Asian)", 35, 110, coerceFreq r.af_eas⟩,
   ⟨"西欧 (Non-Finnish European)", 48, 5, coerceFreq r.af_nfe⟩,
   ⟨"芬兰 (Finnish)", 62, 26, coerceFreq r.af_fin⟩,
   ⟨"南亚 (South Asian)", 22, 78, coerceFreq r.af_sas⟩,
   ⟨"德系犹太人 (Ashkenazi Jewish)", 32, 35, coerceFreq r.af_asj⟩,
   ⟨"其他人群 (Other)", -20, 140, coerceFreq r.af_oth⟩]

/-- Line 126: `valid_m_df = m_df[m_df['Freq'] > 0]` — only points with a
strictly positive frequency are kept (and thus plotted). -/
def validPoints (r : Row) : List PopulationPoint :=
  (mapData r).filter (fun p => decide (0 < p.freq))

/-- Lines 102-160, first tab: when `has_freq` holds, the points of
`valid_m_df` are plotted; otherwise a warning is shown and no point is
plotted; a Python exception raised while computing `has_freq`
propagates (`Except.error`). -/
def project (r : Row) : Except String (List PopulationPoint) :=
  match hasFreq r with
  | Except.error e => Except.error e
  | Except.ok true => Except.ok (validPoints r)
  | Except.ok false => Except.ok []

/-- A cell carrying no usable frequency: missing, or a number ≤ 0. -/
def NoData (v : Option CellValue) : Prop :=
  v = none ∨ ∃ q : ℚ, v = some (CellValue.num q) ∧ q ≤ 0

/-- Is the cell free of non-numeric content? -/
def numericOrMissing : Option CellValue → Bool
  | some (CellValue.nonNumeric _) => false
  | _ => true

/-- The frequency cell of one population, by position in `freq_cols`. -/
def popVal (r : Row) (i : Fin 8) : Option CellValue :=
  (freqVals r).get (Fin.cast rfl i)

/-- The fixed region/coordinate table of lines 114-121, by position. -/
def regionTable : List (String × Int × Int) :=
  [("非洲 (African)", 0, 20),
   ("美洲 (Latino American)", 15, -90),
   ("东亚 (East Asian)", 35, 110),
   ("西欧 (Non-Finnish European)", 48, 5),
   ("芬兰 (Finnish)", 62, 26),
   ("南亚 (South Asian)", 22, 78),
   ("德系犹太人 (Ashkenazi Jewish)", 32, 35),
   ("其他人群 (Other)", -20, 140)]

/-- The region label and coordinates of one population, by position. -/
def popRegion (i : Fin 8) : String × Int × Int :=
  regionTable.get (Fin.cast rfl i)

/-- Example row: one zero-valued frequency cell, the rest missing. -/
def rowZ : Row := { rowG with af_eas := some (CellValue.num 0) }

/-- Example row whose only positive frequency is East Asian 0.002. -/
def rowEas : Row := { rowG with af_eas := some (CellValue.num (1/500)) }

/-- Example row with a non-numeric frequency cell. -/
def rowBad : Row := { rowG with af_afr := some (CellValue.nonNumeric "abc") }

/-- Example row with one positive numeric cell and the rest missing. -/
def rowMix : Row := { rowG with af_amr := some (CellValue.num (1/4)) }

/-- Line 18-22 of `app.py`: the candidate input paths, in priority
order. -/
def possible_paths : List String :=
  ["final_variant_data.csv", "final_variant_data.csv.gz",
   "final_variant_data.zip"]

/-- Lines 24-28: the first existing candidate path, if any. -/
def findDataPath (pathExists : String → Bool) : Option String :=
  possible_paths.find? pathExists

/-- Lines 14-47 abstracted over the filesystem (`pathExists`) and CSV
parsing (`parseCsv`, whose result includes the `rsid` coercion of line 40
and whose `none` models a parse failure): when no candidate path exists,
an error message is shown and no table is returned (lines 30-32). -/
def load_data (pathExists : String → Bool)
    (parseCsv : String → Option (List Row)) : Option (List Row) :=
  match findDataPath pathExists with
  | none => none
  | some p => parseCsv p

/-- Line 55: the dashboard body renders only when a table was loaded
(`if full_df is not None`). -/
def rendersBody (pathExists : String → Bool)
    (parseCsv : String → Option (List Row)) : Bool :=
  (load_data pathExists parseCsv).isSome

/-- Helper: `litRE` on a cons is a `seq` of the head character. -/
theorem litRE_cons (c : Char) (p : List Char) :
    litRE (c :: p) = RE.seq (RE.ch c) (litRE p) := rfl

/-- Helper: smart concatenation with an empty left factor. -/
theorem mkSeq_eps (r : RE) : mkSeq RE.eps r = r := by
  cases r <;> rfl

/-- Helper: smart concatenation with an unmatchable left factor. -/
theorem mkSeq_fail (r : RE) : mkSeq RE.fail r = RE.fail := by
  cases r <;> rfl

/-- Helper: the unmatchable regex matches no prefix. -/
theorem reMatchPref_fail (l : List Char) :
    reMatchPref RE.fail l = false := by
  induction l with
  | nil => rfl
  | cons c t ih => simp [reMatchPref, reNullable, reDeriv, ih]

/-- Helper: the derivative of a literal regex consumes its first
character, up to case folding. -/
theorem reDeriv_lit (c : Char) (p : List Char) (d : Char) :
    reDeriv (litRE (c :: p)) d =
      if c.toLower = d.toLower then litRE p else RE.fail := by
  rw [litRE_cons]
  by_cases h : c.toLower = d.toLower
  · simp [reDeriv, reNullable, h, mkSeq_eps]
  · simp [reDeriv, reNullable, h, mkSeq_fail]

/-- Helper: a literal regex matches a prefix of the input exactly when
its (lower-cased) characters are a prefix of the (lower-cased) input. -/
theorem reMatchPref_lit (p : List Char) :
    ∀ l : List Char,
      reMatchPref (litRE p) l =
        (p.map Char.toLower).isPrefixOf (l.map Char.toLower) := by
  induction p with
  | nil =>
    intro l
    cases l with
    | nil => rfl
    | cons c t => simp [reMatchPref, litRE, reNullable, List.isPrefixOf]
  | cons c p ih =>
    intro l
    cases l with
    | nil => simp [reMatchPref, litRE_cons, reNullable, List.isPrefixOf]
    | cons d t =>
      rw [reMatchPref, reDeriv_lit]
      by_cases h : c.toLower = d.toLower
      · rw [if_pos h]
        simp [litRE_cons, reNullable, ih t, List.isPrefixOf, h]
      · rw [if_neg h]
        have hb : (c.toLower == d.toLower) = false :=
          beq_eq_false_iff_ne.mpr h
        simp [litRE_cons, reNullable, reMatchPref_fail, List.isPrefixOf, hb]

/-- Helper: searching with a literal regex is (case-insensitive)
substring occurrence. -/
theorem reSearchList_lit (p : List Char) :
    ∀ l : List Char,
      reSearchList (litRE p) l =
        occursIn (p.map Char.toLower) (l.map Char.toLower) := by
  intro l
  induction l with
  | nil =>
    cases p <;>
      simp [reSearchList, litRE, litRE_cons, reNullable, occursIn,
        List.isEmpty]
  | cons c t ih =>
    rw [reSearchList, reMatchPref_lit, ih]
    simp [occursIn]

/-- Helper: on a literal (metacharacter-free) pattern, the regex search
the program performs coincides with the literal case-insensitive
substring containment the spec asserts. -/
theorem reSearch_litRE (q s : String) :
    reSearch (litRE q.toList) s = containsCI s q :=
  reSearchList_lit q.toList s.toList

/-- C1 counterexample: the query is a regular expression, not a literal
substring: the program retains a row whose `PhenotypeList` "aXb" is
matched by the pattern "a.b" although it does not contain "a.b" as a
literal substring. -/
theorem filtered_rows_match_disease_cex :
    filterTable [rowAXB] "a.b" "" = Except.ok [rowAXB] ∧
    containsCI "aXb" "a.b" = false := ⟨rfl, rfl⟩

/-- C1 amended: the disease query is interpreted as a regular expression
(case-insensitive, search semantics). For every table and every
non-empty (already-stripped) query whose pattern compiles, filtering
succeeds and every row of the result has a non-missing `PhenotypeList`
on which the regex search succeeds; rows with a missing `PhenotypeList`
are excluded. When the pattern is a plain literal (it compiles to the
concatenation of its characters), the original substring reading holds:
every retained row contains the query as a case-insensitive substring. -/
theorem filtered_rows_match_disease (t : List Row) (q : String) (r : RE)
    (hq : q ≠ "") (hs : pyStrip q = q) (hc : compileRE q = some r) :
    ∃ res, filterTable t q "" = Except.ok res ∧
      res.all (fun row => match row.phenotypeList with
        | none => false
        | some s => reSearch r s) = true ∧
      (r = litRE q.toList →
        res.all (fun row => match row.phenotypeList with
          | none => false
          | some s => containsCI s q) = true) := by
  refine ⟨t.filter (fun row => optSearch r row.phenotypeList), ?_, ?_, ?_⟩
  · simp only [filterTable]
    rw [hs]
    rw [if_neg hq]
    simp [reFilter, hc, pyStrip]
  · rw [List.all_eq_true]
    intro row hrow
    have hm : optSearch r row.phenotypeList = true :=
      (List.mem_filter.mp hrow).2
    cases hpl : row.phenotypeList with
    | none => rw [hpl] at hm; exact absurd hm (by simp [optSearch])
    | some s => rw [hpl] at hm; exact hm
  · intro hlit
    rw [List.all_eq_true]
    intro row hrow
    have hm : optSearch r row.phenotypeList = true :=
      (List.mem_filter.mp hrow).2
    cases hpl : row.phenotypeList with
    | none => rw [hpl] at hm; exact absurd hm (by simp [optSearch])
    | some s =>
      rw [hpl] at hm
      rw [hlit] at hm
      show containsCI s q = true
      rw [← reSearch_litRE q s]
      exact hm

/-- Witness for the amended C1 on a concrete two-row table (one matching
row, one row with a missing phenotype) and the literal query "cystic". -/
theorem filtered_rows_match_disease_witness :
    ∃ res, filterTable [rowCF, rowBRCA] "cystic" "" = Except.ok res ∧
      res.all (fun row => match row.phenotypeList with
        | none => false
        | some s => reSearch (litRE "cystic".toList) s) = true ∧
      (litRE "cystic".toList = litRE "cystic".toList →
        res.all (fun row => match row.phenotypeList with
          | none => false
          | some s => containsCI s "cystic") = true) :=
  filtered_rows_match_disease [rowCF, rowBRCA] "cystic"
    (litRE "cystic".toList) (by decide) (by decide) rfl

/-- C6: blank (empty or whitespace-only) queries are stripped to empty
and apply no filter: the filter succeeds and returns the table
unchanged. -/
theorem filter_blank_queries_id (t : List Row) (dq gq : String)
    (hd : pyStrip dq = "") (hg : pyStrip gq = "") :
    filterTable t dq gq = Except.ok t := by
  simp only [filterTable]
  rw [hd, hg]
  simp

/-- Witness for C6: a whitespace-only disease query and a tab gene query
leave a concrete table unchanged. -/
theorem filter_blank_queries_id_witness :
    filterTable [rowCF, rowBRCA] "   " "\t" = Except.ok [rowCF, rowBRCA] :=
  filter_blank_queries_id [rowCF, rowBRCA] "   " "\t" (by decide) (by decide)

/-- C5 counterexample: the conjunctive characterization with the literal
substring conditions of the spec fails on the program: the gene pattern
"c.r" retains the row with gene symbol "CXR" although "c.r" is not a
literal substring of "CXR"; and the malformed query "(" makes the filter
raise `re.error` instead of returning a table at all. -/
theorem filter_conjunctive_cex :
    filterTable [rowCXR] "" "c.r" = Except.ok [rowCXR] ∧
    containsCI "CXR" "c.r" = false ∧
    filterTable [rowCXR] "(" "" = Except.error "(" := ⟨rfl, rfl, rfl⟩

/-- C5 amended: when the stripped queries compile as regular expressions
(a blank query trivially does), the two filters compose conjunctively:
filtering succeeds and returns exactly the rows satisfying both the
(possibly vacuous) disease regex condition and the (possibly vacuous)
gene regex condition, in their original order. In particular, on a 3-row
table with two CFTR rows and one BRCA1 row, the literal gene query
"cftr" alone returns exactly the two CFTR rows in order. -/
theorem filter_conjunctive :
    (∀ (t : List Row) (dq gq : String) (rd rg : RE),
      compileRE (pyStrip dq) = some rd → compileRE (pyStrip gq) = some rg →
      filterTable t dq gq =
        Except.ok (t.filter (fun row => rowMatches row dq gq rd rg))) ∧
    filterTable [rowCF, rowCF2, rowBRCA] "" "cftr" =
      Except.ok [rowCF, rowCF2] := by
  constructor
  · intro t dq gq rd rg hd hg
    simp only [filterTable]
    by_cases hdq : pyStrip dq = "" <;> by_cases hgq : pyStrip gq = "" <;>
      simp [hdq, hgq, reFilter, hd, hg, rowMatches, List.filter_filter,
        List.filter_true, Bool.and_comm]
  · rfl

/-- Witness for the amended C5: both queries non-blank and literal, on a
concrete 3-row table. -/
theorem filter_conjunctive_witness :
    filterTable [rowCF, rowCF2, rowBRCA] "cystic" "cftr" =
      Except.ok (([rowCF, rowCF2, rowBRCA] : List Row).filter
        (fun row => rowMatches row "cystic" "cftr"
          (litRE "cystic".toList) (litRE "cftr".toList))) :=
  filter_conjunctive.1 [rowCF, rowCF2, rowBRCA] "cystic" "cftr"
    (litRE "cystic".toList) (litRE "cftr".toList) rfl rfl

/-- Helper: the truncated component has at most `n` characters. -/
theorem strTake_length_le (s : String) (n : Nat) : (strTake s n).length ≤ n := by
  have h : (strTake s n).length = (s.toList.take n).length := rfl
  rw [h, List.length_take]
  exact Nat.min_le_left _ _

/-- Helper: a string is its first `n` characters followed by the rest. -/
theorem strTake_append_drop (s : String) (n : Nat) :
    strTake s n ++ String.mk (s.toList.drop n) = s := by
  have h : strTake s n ++ String.mk (s.toList.drop n) =
      String.mk (s.toList.take n ++ s.toList.drop n) := rfl
  rw [h, List.take_append_drop]
  rfl

/-- C7: the record selector labels at most 500 rows: the label list has
length `min 500 (length of the filtered table)`, and its `i`-th label is
the label of the `i`-th filtered row, preserving the original order; in
particular 600 matching rows yield exactly 500 labels. -/
theorem buildLabels_spec (t : List Row) :
    (buildLabels t).length = min 500 t.length ∧
    ∀ i : Nat, i < 500 → (buildLabels t)[i]? = (t[i]?).map selectionName := by
  constructor
  · show ((t.take 500).map selectionName).length = min 500 t.length
    rw [List.length_map, List.length_take]
  · intro i hi
    show ((t.take 500).map selectionName)[i]? = (t[i]?).map selectionName
    rw [List.getElem?_map, List.getElem?_take_of_lt hi]

/-- Witness for C7: 600 copies of a row yield `min 500 600 = 500` labels
and the fourth label is the fourth row's label. -/
theorem buildLabels_spec_witness :
    (buildLabels (List.replicate 600 rowG)).length =
      min 500 (List.replicate 600 rowG).length ∧
    (buildLabels (List.replicate 600 rowG))[3]? =
      ((List.replicate 600 rowG)[3]?).map selectionName :=
  ⟨(buildLabels_spec (List.replicate 600 rowG)).1,
    (buildLabels_spec (List.replicate 600 rowG)).2 3 (by decide)⟩

/-- C9 counterexample: on a concrete row the label is
"G | N... | 疾病: P...": the gene symbol component is followed by the
separator " | ", not by an ellipsis marker, so it is not the case that
each of the three components is followed by an ellipsis. -/
theorem selection_label_cex :
    selectionName rowG = "G | N... | 疾病: P..." ∧
    ¬ ∃ x : String,
        selectionName rowG = astypeStr rowG.geneSymbol ++ "..." ++ x := by
  refine ⟨by decide, ?_⟩
  rintro ⟨x, hx⟩
  have h2 : ((astypeStr rowG.geneSymbol ++ "..." ++ x)).data[1]? = some '.' := by
    rw [String.data_append]
    rfl
  have h3 : (some ' ' : Option Char) = some '.' := by
    calc (some ' ' : Option Char)
        = (selectionName rowG).data[1]? := by decide
      _ = ((astypeStr rowG.geneSymbol ++ "..." ++ x)).data[1]? := by rw [hx]
      _ = some '.' := h2
  exact absurd h3 (by decide)

/-- C9 amended: the label is the gene symbol, a separator, the variant
name truncated to at most 40 characters, an ellipsis (appended whether or
not truncation occurred), a separator, the phenotype list truncated to at
most 60 characters, and an ellipsis (again unconditional); the gene
symbol is followed by the separator, not by an ellipsis. -/
theorem selection_label_format (r : Row) :
    ∃ t1 t2 : String,
      selectionName r =
        astypeStr r.geneSymbol ++ " | " ++ t1 ++ "..." ++ " | 疾病: " ++
          t2 ++ "..." ∧
      t1.length ≤ 40 ∧ t2.length ≤ 60 ∧
      (∃ u, astypeStr r.name = t1 ++ u) ∧
      (∃ v, astypeStr r.phenotypeList = t2 ++ v) := by
  refine ⟨strTake (astypeStr r.name) 40, strTake (astypeStr r.phenotypeList) 60,
    ?_, strTake_length_le _ _, strTake_length_le _ _,
    ⟨String.mk ((astypeStr r.name).toList.drop 40),
      (strTake_append_drop _ _).symm⟩,
    ⟨String.mk ((astypeStr r.phenotypeList).toList.drop 60),
      (strTake_append_drop _ _).symm⟩⟩
  apply String.ext
  simp [selectionName, String.data_append, List.append_assoc]

/-- C10: label-based selection resolves to the first displayed row whose
label equals the selected label; displayed rows after it that share the
same label are unreachable through selection. -/
theorem resolve_first_match (t : List Row) (label : String)
    (pre rest : List Row) (r : Row)
    (hsplit : t.take display_limit = pre ++ r :: rest)
    (hr : selectionName r = label)
    (hpre : ∀ p ∈ pre, selectionName p ≠ label) :
    resolveSelection t label = some r := by
  unfold resolveSelection
  rw [hsplit, List.filter_append]
  have hpre2 : pre.filter (fun p => selectionName p == label) = [] := by
    rw [List.filter_eq_nil_iff]
    intro p hp
    simp [hpre p hp]
  rw [hpre2]
  simp [List.filter_cons, hr]

/-- Witness for C10: two distinct rows share one label; selection by that
label resolves to the first of them. -/
theorem resolve_first_match_witness :
    resolveSelection [rowG, rowG2] (selectionName rowG) = some rowG :=
  resolve_first_match [rowG, rowG2] (selectionName rowG) [] [rowG2] rowG rfl rfl
    (by intro p hp; exact absurd hp (List.not_mem_nil p))

/-- Helper: a cell with no usable frequency is skipped by `has_freq`. -/
theorem anyPos_cons_noData (v : Option CellValue)
    (vs : List (Option CellValue)) (h : NoData v) :
    anyPos (v :: vs) = anyPos vs := by
  rcases h with h | ⟨q, hq, hle⟩
  · rw [h]
    rfl
  · rw [hq]
    show (if 0 < q then Except.ok true else anyPos vs) = anyPos vs
    rw [if_neg (not_lt.mpr hle)]

/-- Helper: a positive numeric cell makes `has_freq` true at once. -/
theorem anyPos_cons_pos (q : ℚ) (vs : List (Option CellValue))
    (hq : 0 < q) :
    anyPos (some (CellValue.num q) :: vs) = Except.ok true := by
  show (if 0 < q then Except.ok true else anyPos vs) = Except.ok true
  rw [if_pos hq]

/-- Helper: a numeric cell coerces to its value. -/
theorem coerceFreq_num (q : ℚ) :
    coerceFreq (some (CellValue.num q)) = q := rfl

/-- Helper: a cell with no usable frequency coerces to a nonpositive
`Freq`, so its point is filtered out. -/
theorem coerceFreq_noData (v : Option CellValue) (h : NoData v) :
    decide (0 < coerceFreq v) = false := by
  rcases h with h | ⟨q, hq, hle⟩
  · rw [h]; rfl
  · rw [hq]
    exact decide_eq_false (not_lt.mpr hle)

/-- Helper: without non-numeric cells, `has_freq` cannot raise. -/
theorem anyPos_ok (vs : List (Option CellValue))
    (h : ∀ v ∈ vs, numericOrMissing v = true) :
    ∃ b, anyPos vs = Except.ok b := by
  induction vs with
  | nil => exact ⟨false, rfl⟩
  | cons v vs ih =>
    have hv := h v (List.mem_cons_self v vs)
    have htail : ∀ w ∈ vs, numericOrMissing w = true :=
      fun w hw => h w (List.mem_cons_of_mem v hw)
    cases v with
    | none =>
      obtain ⟨b, hb⟩ := ih htail
      exact ⟨b, hb⟩
    | some c =>
      cases c with
      | num q =>
        by_cases hq : 0 < q
        · refine ⟨true, ?_⟩
          show (if 0 < q then Except.ok true else anyPos vs) = Except.ok true
          rw [if_pos hq]
        · obtain ⟨b, hb⟩ := ih htail
          refine ⟨b, ?_⟩
          show (if 0 < q then Except.ok true else anyPos vs) = Except.ok b
          rw [if_neg hq]
          exact hb
      | nonNumeric s => exact absurd hv (by simp [numericOrMissing])

/-- Helper: `project` when `has_freq` is true. -/
theorem project_ok_true (r : Row) (h : hasFreq r = Except.ok true) :
    project r = Except.ok (validPoints r) := by
  unfold project
  rw [h]

/-- Helper: `project` when `has_freq` is false. -/
theorem project_ok_false (r : Row) (h : hasFreq r = Except.ok false) :
    project r = Except.ok [] := by
  unfold project
  rw [h]

/-- C2: a row whose eight frequency cells are all absent or hold values
that are ≤ 0 projects to the empty point list: nothing is plotted, not
even zero-size points. -/
theorem project_noData_empty (r : Row)
    (h1 : NoData r.af_afr) (h2 : NoData r.af_amr) (h3 : NoData r.af_eas)
    (h4 : NoData r.af_nfe) (h5 : NoData r.af_fin) (h6 : NoData r.af_sas)
    (h7 : NoData r.af_asj) (h8 : NoData r.af_oth) :
    project r = Except.ok [] := by
  have hf : hasFreq r = Except.ok false := by
    show anyPos [r.af_afr, r.af_amr, r.af_eas, r.af_nfe, r.af_fin,
      r.af_sas, r.af_asj, r.af_oth] = Except.ok false
    rw [anyPos_cons_noData _ _ h1, anyPos_cons_noData _ _ h2,
      anyPos_cons_noData _ _ h3, anyPos_cons_noData _ _ h4,
      anyPos_cons_noData _ _ h5, anyPos_cons_noData _ _ h6,
      anyPos_cons_noData _ _ h7, anyPos_cons_noData _ _ h8]
    rfl
  exact project_ok_false r hf

/-- Witness for C2 on a concrete row: seven missing cells and one zero
cell yield no plotted point. -/
theorem project_noData_empty_witness : project rowZ = Except.ok [] :=
  project_noData_empty rowZ (Or.inl rfl) (Or.inl rfl)
    (Or.inr ⟨0, rfl, le_refl 0⟩) (Or.inl rfl) (Or.inl rfl) (Or.inl rfl)
    (Or.inl rfl) (Or.inl rfl)

/-- C3: a row with exactly one positive frequency cell (the others absent
or ≤ 0) projects to exactly one point, carrying that population's region
label, its fixed coordinates from the static table, and the frequency
value copied from the cell. -/
theorem project_single_point (r : Row) (i : Fin 8) (q : ℚ) (hq : 0 < q)
    (hpos : popVal r i = some (CellValue.num q))
    (hother : ∀ j : Fin 8, j ≠ i → NoData (popVal r j)) :
    project r = Except.ok
      [⟨(popRegion i).1, (popRegion i).2.1, (popRegion i).2.2, q⟩] := by
  fin_cases i
  · have hp : r.af_afr = some (CellValue.num q) := hpos
    have nAmr : NoData r.af_amr := hother 1 (by decide)
    have nEas : NoData r.af_eas := hother 2 (by decide)
    have nNfe : NoData r.af_nfe := hother 3 (by decide)
    have nFin : NoData r.af_fin := hother 4 (by decide)
    have nSas : NoData r.af_sas := hother 5 (by decide)
    have nAsj : NoData r.af_asj := hother 6 (by decide)
    have nOth : NoData r.af_oth := hother 7 (by decide)
    have hf : hasFreq r = Except.ok true := by
      show anyPos [r.af_afr, r.af_amr, r.af_eas, r.af_nfe, r.af_fin,
        r.af_sas, r.af_asj, r.af_oth] = Except.ok true
      rw [hp, anyPos_cons_pos _ _ hq]
    have hv : validPoints r = [⟨"非洲 (African)", 0, 20, q⟩] := by
      show (mapData r).filter (fun p => decide (0 < p.freq)) = _
      simp only [mapData]
      rw [hp]
      simp [List.filter_cons, coerceFreq_num, coerceFreq_noData _ nAmr,
        coerceFreq_noData _ nEas, coerceFreq_noData _ nNfe,
        coerceFreq_noData _ nFin, coerceFreq_noData _ nSas,
        coerceFreq_noData _ nAsj, coerceFreq_noData _ nOth, hq]
    rw [project_ok_true r hf, hv]
    rfl
  · have hp : r.af_amr = some (CellValue.num q) := hpos
    have nAfr : NoData r.af_afr := hother 0 (by decide)
    have nEas : NoData r.af_eas := hother 2 (by decide)
    have nNfe : NoData r.af_nfe := hother 3 (by decide)
    have nFin : NoData r.af_fin := hother 4 (by decide)
    have nSas : NoData r.af_sas := hother 5 (by decide)
    have nAsj : NoData r.af_asj := hother 6 (by decide)
    have nOth : NoData r.af_oth := hother 7 (by decide)
    have hf : hasFreq r = Except.ok true := by
      show anyPos [r.af_afr, r.af_amr, r.af_eas, r.af_nfe, r.af_fin,
        r.af_sas, r.af_asj, r.af_oth] = Except.ok true
      rw [anyPos_cons_noData _ _ nAfr, hp, anyPos_cons_pos _ _ hq]
    have hv : validPoints r = [⟨"美洲 (Latino American)", 15, -90, q⟩] := by
      show (mapData r).filter (fun p => decide (0 < p.freq)) = _
      simp only [mapData]
      rw [hp]
      simp [List.filter_cons, coerceFreq_num, coerceFreq_noData _ nAfr,
        coerceFreq_noData _ nEas, coerceFreq_noData _ nNfe,
        coerceFreq_noData _ nFin, coerceFreq_noData _ nSas,
        coerceFreq_noData _ nAsj, coerceFreq_noData _ nOth, hq]
    rw [project_ok_true r hf, hv]
    rfl
  · have hp : r.af_eas = some (CellValue.num q) := hpos
    have nAfr : NoData r.af_afr := hother 0 (by decide)
    have nAmr : NoData r.af_amr := hother 1 (by decide)
    have nNfe : NoData r.af_nfe := hother 3 (by decide)
    have nFin : NoData r.af_fin := hother 4 (by decide)
    have nSas : NoData r.af_sas := hother 5 (by decide)
    have nAsj : NoData r.af_asj := hother 6 (by decide)
    have nOth : NoData r.af_oth := hother 7 (by decide)
    have hf : hasFreq r = Except.ok true := by
      show anyPos [r.af_afr, r.af_amr, r.af_eas, r.af_nfe, r.af_fin,
        r.af_sas, r.af_asj, r.af_oth] = Except.ok true
      rw [anyPos_cons_noData _ _ nAfr, anyPos_cons_noData _ _ nAmr, hp,
        anyPos_cons_pos _ _ hq]
    have hv : validPoints r = [⟨"东亚 (East Asian)", 35, 110, q⟩] := by
      show (mapData r).filter (fun p => decide (0 < p.freq)) = _
      simp only [mapData]
      rw [hp]
      simp [List.filter_cons, coerceFreq_num, coerceFreq_noData _ nAfr,
        coerceFreq_noData _ nAmr, coerceFreq_noData _ nNfe,
        coerceFreq_noData _ nFin, coerceFreq_noData _ nSas,
        coerceFreq_noData _ nAsj, coerceFreq_noData _ nOth, hq]
    rw [project_ok_true r hf, hv]
    rfl
  · have hp : r.af_nfe = some (CellValue.num q) := hpos
    have nAfr : NoData r.af_afr := hother 0 (by decide)
    have nAmr : NoData r.af_amr := hother 1 (by decide)
    have nEas : NoData r.af_eas := hother 2 (by decide)
    have nFin : NoData r.af_fin := hother 4 (by decide)
    have nSas : NoData r.af_sas := hother 5 (by decide)
    have nAsj : NoData r.af_asj := hother 6 (by decide)
    have nOth : NoData r.af_oth := hother 7 (by decide)
    have hf : hasFreq r = Except.ok true := by
      show anyPos [r.af_afr, r.af_amr, r.af_eas, r.af_nfe, r.af_fin,
        r.af_sas, r.af_asj, r.af_oth] = Except.ok true
      rw [anyPos_cons_noData _ _ nAfr, anyPos_cons_noData _ _ nAmr,
        anyPos_cons_noData _ _ nEas, hp, anyPos_cons_pos _ _ hq]
    have hv : validPoints r = [⟨"西欧 (Non-Finnish European)", 48, 5, q⟩] := by
      show (mapData r).filter (fun p => decide (0 < p.freq)) = _
      simp only [mapData]
      rw [hp]
      simp [List.filter_cons, coerceFreq_num, coerceFreq_noData _ nAfr,
        coerceFreq_noData _ nAmr, coerceFreq_noData _ nEas,
        coerceFreq_noData _ nFin, coerceFreq_noData _ nSas,
        coerceFreq_noData _ nAsj, coerceFreq_noData _ nOth, hq]
    rw [project_ok_true r hf, hv]
    rfl
  · have hp : r.af_fin = some (CellValue.num q) := hpos
    have nAfr : NoData r.af_afr := hother 0 (by decide)
    have nAmr : NoData r.af_amr := hother 1 (by decide)
    have nEas : NoData r.af_eas := hother 2 (by decide)
    have nNfe : NoData r.af_nfe := hother 3 (by decide)
    have nSas : NoData r.af_sas := hother 5 (by decide)
    have nAsj : NoData r.af_asj := hother 6 (by decide)
    have nOth : NoData r.af_oth := hother 7 (by decide)
    have hf : hasFreq r = Except.ok true := by
      show anyPos [r.af_afr, r.af_amr, r.af_eas, r.af_nfe, r.af_fin,
        r.af_sas, r.af_asj, r.af_oth] = Except.ok true
      rw [anyPos_cons_noData _ _ nAfr, anyPos_cons_noData _ _ nAmr,
        anyPos_cons_noData _ _ nEas, anyPos_cons_noData _ _ nNfe, hp,
        anyPos_cons_pos _ _ hq]
    have hv : validPoints r = [⟨"芬兰 (Finnish)", 62, 26, q⟩] := by
      show (mapData r).filter (fun p => decide (0 < p.freq)) = _
      simp only [mapData]
      rw [hp]
      simp [List.filter_cons, coerceFreq_num, coerceFreq_noData _ nAfr,
        coerceFreq_noData _ nAmr, coerceFreq_noData _ nEas,
        coerceFreq_noData _ nNfe, coerceFreq_noData _ nSas,
        coerceFreq_noData _ nAsj, coerceFreq_noData _ nOth, hq]
    rw [project_ok_true r hf, hv]
    rfl
  · have hp : r.af_sas = some (CellValue.num q) := hpos
    have nAfr : NoData r.af_afr := hother 0 (by decide)
    have nAmr : NoData r.af_amr := hother 1 (by decide)
    have nEas : NoData r.af_eas := hother 2 (by decide)
    have nNfe : NoData r.af_nfe := hother 3 (by decide)
    have nFin : NoData r.af_fin := hother 4 (by decide)
    have nAsj : NoData r.af_asj := hother 6 (by decide)
    have nOth : NoData r.af_oth := hother 7 (by decide)
    have hf : hasFreq r = Except.ok true := by
      show anyPos [r.af_afr, r.af_amr, r.af_eas, r.af_nfe, r.af_fin,
        r.af_sas, r.af_asj, r.af_oth] = Except.ok true
      rw [anyPos_cons_noData _ _ nAfr, anyPos_cons_noData _ _ nAmr,
        anyPos_cons_noData _ _ nEas, anyPos_cons_noData _ _ nNfe,
        anyPos_cons_noData _ _ nFin, hp, anyPos_cons_pos _ _ hq]
    have hv : validPoints r = [⟨"南亚 (South Asian)", 22, 78, q⟩] := by
      show (mapData r).filter (fun p => decide (0 < p.freq)) = _
      simp only [mapData]
      rw [hp]
      simp [List.filter_cons, coerceFreq_num, coerceFreq_noData _ nAfr,
        coerceFreq_noData _ nAmr, coerceFreq_noData _ nEas,
        coerceFreq_noData _ nNfe, coerceFreq_noData _ nFin,
        coerceFreq_noData _ nAsj, coerceFreq_noData _ nOth, hq]
    rw [project_ok_true r hf, hv]
    rfl
  · have hp : r.af_asj = some (CellValue.num q) := hpos
    have nAfr : NoData r.af_afr := hother 0 (by decide)
    have nAmr : NoData r.af_amr := hother 1 (by decide)
    have nEas : NoData r.af_eas := hother 2 (by decide)
    have nNfe : NoData r.af_nfe := hother 3 (by decide)
    have nFin : NoData r.af_fin := hother 4 (by decide)
    have nSas : NoData r.af_sas := hother 5 (by decide)
    have nOth : NoData r.af_oth := hother 7 (by decide)
    have hf : hasFreq r = Except.ok true := by
      show anyPos [r.af_afr, r.af_amr, r.af_eas, r.af_nfe, r.af_fin,
        r.af_sas, r.af_asj, r.af_oth] = Except.ok true
      rw [anyPos_cons_noData _ _ nAfr, anyPos_cons_noData _ _ nAmr,
        anyPos_cons_noData _ _ nEas, anyPos_cons_noData _ _ nNfe,
        anyPos_cons_noData _ _ nFin, anyPos_cons_noData _ _ nSas, hp,
        anyPos_cons_pos _ _ hq]
    have hv : validPoints r = [⟨"德系犹太人 (Ashkenazi Jewish)", 32, 35, q⟩] := by
      show (mapData r).filter (fun p => decide (0 < p.freq)) = _
      simp only [mapData]
      rw [hp]
      simp [List.filter_cons, coerceFreq_num, coerceFreq_noData _ nAfr,
        coerceFreq_noData _ nAmr, coerceFreq_noData _ nEas,
        coerceFreq_noData _ nNfe, coerceFreq_noData _ nFin,
        coerceFreq_noData _ nSas, coerceFreq_noData _ nOth, hq]
    rw [project_ok_true r hf, hv]
    rfl
  · have hp : r.af_oth = some (CellValue.num q) := hpos
    have nAfr : NoData r.af_afr := hother 0 (by decide)
    have nAmr : NoData r.af_amr := hother 1 (by decide)
    have nEas : NoData r.af_eas := hother 2 (by decide)
    have nNfe : NoData r.af_nfe := hother 3 (by decide)
    have nFin : NoData r.af_fin := hother 4 (by decide)
    have nSas : NoData r.af_sas := hother 5 (by decide)
    have nAsj : NoData r.af_asj := hother 6 (by decide)
    have hf : hasFreq r = Except.ok true := by
      show anyPos [r.af_afr, r.af_amr, r.af_eas, r.af_nfe, r.af_fin,
        r.af_sas, r.af_asj, r.af_oth] = Except.ok true
      rw [anyPos_cons_noData _ _ nAfr, anyPos_cons_noData _ _ nAmr,
        anyPos_cons_noData _ _ nEas, anyPos_cons_noData _ _ nNfe,
        anyPos_cons_noData _ _ nFin, anyPos_cons_noData _ _ nSas,
        anyPos_cons_noData _ _ nAsj, hp, anyPos_cons_pos _ _ hq]
    have hv : validPoints r = [⟨"其他人群 (Other)", -20, 140, q⟩] := by
      show (mapData r).filter (fun p => decide (0 < p.freq)) = _
      simp only [mapData]
      rw [hp]
      simp [List.filter_cons, coerceFreq_num, coerceFreq_noData _ nAfr,
        coerceFreq_noData _ nAmr, coerceFreq_noData _ nEas,
        coerceFreq_noData _ nNfe, coerceFreq_noData _ nFin,
        coerceFreq_noData _ nSas, coerceFreq_noData _ nAsj, hq]
    rw [project_ok_true r hf, hv]
    rfl

/-- Witness for C3: a row whose only data is `af_eas = 0.002` projects to
the single East Asian point at latitude 35, longitude 110. -/
theorem project_single_point_witness :
    project rowEas =
      Except.ok [⟨"东亚 (East Asian)", 35, 110, (1 : ℚ)/500⟩] :=
  project_single_point rowEas 2 ((1 : ℚ)/500) (by norm_num) rfl
    (by
      intro j hj
      fin_cases j
      · exact Or.inl rfl
      · exact Or.inl rfl
      · exact absurd (by decide) hj
      · exact Or.inl rfl
      · exact Or.inl rfl
      · exact Or.inl rfl
      · exact Or.inl rfl
      · exact Or.inl rfl)

/-- C4 counterexample: on a row whose `af_afr` cell holds the non-numeric
content "abc", the projection raises (the `has_freq` check calls `float`
on the non-null cell), instead of treating the value as 0. -/
theorem project_nonNumeric_raises :
    rowBad.af_afr = some (CellValue.nonNumeric "abc") ∧
    project rowBad = Except.error "abc" := ⟨rfl, rfl⟩

/-- C4 amended: missing frequency cells are treated as 0 and never make
the projection raise: a row free of non-numeric cells always projects
without error (and the map-data coercion sends a missing cell to 0); only
a non-numeric cell examined by the `has_freq` check makes projection
raise. -/
theorem project_missing_as_zero (r : Row)
    (h : ∀ v ∈ freqVals r, numericOrMissing v = true) :
    (∃ pts, project r = Except.ok pts) ∧ coerceFreq none = 0 := by
  refine ⟨?_, rfl⟩
  obtain ⟨b, hb⟩ := anyPos_ok (freqVals r) h
  cases b with
  | true => exact ⟨validPoints r, project_ok_true r hb⟩
  | false => exact ⟨[], project_ok_false r hb⟩

/-- Witness for the amended C4: a row with seven missing cells and one
positive numeric cell projects without error. -/
theorem project_missing_as_zero_witness :
    (∃ pts, project rowMix = Except.ok pts) ∧ coerceFreq none = 0 :=
  project_missing_as_zero rowMix (by decide)

/-- C8: the loader tries the candidate paths in the fixed order plain
CSV, then gzip, then zip, selecting the first existing one; when none of
the candidates exists it returns no table and the dashboard body does not
render. -/
theorem load_data_path_priority (pathExists : String → Bool)
    (parseCsv : String → Option (List Row)) :
    (pathExists "final_variant_data.csv" = true →
      findDataPath pathExists = some "final_variant_data.csv") ∧
    (pathExists "final_variant_data.csv" = false →
      pathExists "final_variant_data.csv.gz" = true →
      findDataPath pathExists = some "final_variant_data.csv.gz") ∧
    (pathExists "final_variant_data.csv" = false →
      pathExists "final_variant_data.csv.gz" = false →
      pathExists "final_variant_data.zip" = true →
      findDataPath pathExists = some "final_variant_data.zip") ∧
    ((∀ p ∈ possible_paths, pathExists p = false) →
      load_data pathExists parseCsv = none ∧
      rendersBody pathExists parseCsv = false) := by
  refine ⟨?_, ?_, ?_, ?_⟩
  · intro h1
    show possible_paths.find? pathExists = _
    simp [possible_paths, h1]
  · intro h1 h2
    show possible_paths.find? pathExists = _
    simp [possible_paths, h1, h2]
  · intro h1 h2 h3
    show possible_paths.find? pathExists = _
    simp [possible_paths, h1, h2, h3]
  · intro h
    have hn : findDataPath pathExists = none := by
      show possible_paths.find? pathExists = none
      rw [List.find?_eq_none]
      intro x hx
      rw [h x hx]
      exact Bool.false_ne_true
    have hl : load_data pathExists parseCsv = none := by
      unfold load_data
      rw [hn]
    exact ⟨hl, by rw [rendersBody, hl]; rfl⟩

/-- Witness for C8: when only the gzip candidate exists, it is selected;
when no candidate exists, no table is returned. -/
theorem load_data_path_priority_witness :
    findDataPath (fun p => p == "final_variant_data.csv.gz") =
      some "final_variant_data.csv.gz" ∧
    load_data (fun _ => false) (fun _ => some []) = none :=
  ⟨(load_data_path_priority (fun p => p == "final_variant_data.csv.gz")
      (fun _ => some [])).2.1 rfl rfl,
    ((load_data_path_priority (fun _ => false) (fun _ => some [])).2.2.2
      (fun _ _ => rfl)).1⟩
